import Mathlib

/-!
Verification development for the ETLPipeline repository.

The repository consists of three AWS Lambda functions:
* `s3_to_redshift_lambda/lambda_function.py` — the loader: routes an S3 key,
  infers a schema from the CSV header, reconciles the Redshift table state and
  loads the file via COPY;
* `log_to_dynamodb_lambda/lambda_function.py` — the audit writer: derives a
  `table_prefix` from the S3 key and upserts a LoadOutcome item into DynamoDB;
* `api_lambda/lambda_function.py` — the monitoring query API: a filtered scan
  over the audit store.

The Python code is shallowly embedded below.  External effects (S3 reads, the
Redshift connection, DynamoDB) are modelled explicitly: the loader returns,
besides its output or error, the ordered list of I/O events it performed, and
the warehouse is a catalog mapping full table names to their ordered column
list and a row count.  SQL statements that mutate the warehouse take effect
only when followed by a COMMIT event, mirroring psycopg2 transaction
semantics (the code commits only after all statements succeed).
-/

namespace S3ToRedshift

/-- A warehouse table: its ordered column names and its number of rows. -/
structure Table where
  columns : List String
  rows : Nat
deriving DecidableEq, Repr

/-- The warehouse catalog: full table name to table, in creation order. -/
abbrev Warehouse := List (String × Table)

/-- The SQL statements the loader can execute (`curs.execute` calls that
mutate warehouse state).  `copy` records the `from_path` of the source file. -/
inductive SqlOp where
  | dropIfExists (table : String)
  | create (table : String) (columns : List String)
  | truncateTable (table : String)
  | copy (table : String) (from_path : String)
deriving DecidableEq, Repr

/-- The externally visible I/O actions of one loader invocation, in program
order: S3 metadata read (`head_object`), S3 content read (`get_object`),
opening the Redshift connection, catalog reads (`information_schema`
queries in `check_table_exists` / `get_table_columns`), mutating SQL, and
the final `connection.commit()`. -/
inductive Event where
  | s3HeadObject (bucket key : String)
  | s3GetObject (bucket key : String)
  | connect (dbname : String)
  | catalogRead (table : String)
  | query (op : SqlOp)
  | commit
deriving DecidableEq, Repr

/-- The error taxonomy of the loader.  The Python code raises `ValueError`
at four distinct explicit sites, and one further `ValueError` escapes from
a built-in operation; each constructor stands for one site:
* `malformedKey` — line 28, message: Invalid s3_key format;
* `emptyCsv` — line 55, message: CSV file has no columns or is empty;
* `schemaMismatch` — lines 100 and 120, message: Table schema differs from
  CSV columns.  Use the schema action to reconcile;
* `unknownAction` — line 133, message: Unknown action specified in S3 key;
* `unpackValueError` — lines 174 and 185, the two-variable unpack
  `schema_name, table_only = full_table_name.split(".")` raises
  a ValueError (too many values to unpack) whenever the split does not
  yield exactly two parts, i.e. whenever the table name carries a dot. -/
inductive LoadError where
  | malformedKey
  | emptyCsv
  | schemaMismatch
  | unknownAction (action : String)
  | unpackValueError
deriving DecidableEq, Repr

/-- The output dictionary returned by the loader on success
(lines 144-152 of the source). -/
structure Output where
  s3_key : String
  landed_timestamp : String
  loaded_timestamp : String
  file_size : Nat
  table_name : String
  redshift_table_exists : Bool
  load_mode : String
deriving DecidableEq, Repr

/-- Routing information extracted from the S3 key (lines 26-33):
`database/action/table/file...`. -/
structure RoutingInfo where
  database_name : String
  action : String
  table_name : String
  file_name : String
deriving DecidableEq, Repr

/-- Split a character list on a separator character; always yields at least
one (possibly empty) chunk, like the Python `str.split` with an explicit
separator. -/
def splitChar (sep : Char) : List Char → List (List Char)
  | [] => [[]]
  | c :: cs =>
    match splitChar sep cs with
    | [] => if c = sep then [[], []] else [[c]]
    | h :: t => if c = sep then [] :: h :: t else (c :: h) :: t

/-- Model of the Python `str.split` with a one-character separator:
`"".split(sep) = [""]`, adjacent separators yield empty chunks. -/
def pySplit (s : String) (sep : Char) : List String :=
  (splitChar sep s.data).map String.mk

/-- Model of the Python `str.lower()` (ASCII case folding suffices for the
action names compared by the loader). -/
def pyToLower (s : String) : String :=
  String.mk (s.data.map Char.toLower)

/-- Model of the Python `sep.join(list)` with a one-character separator. -/
def pyJoin (sep : Char) (l : List String) : String :=
  String.mk (List.intercalate [sep] (l.map String.data))

/-- Drop every leading whitespace character of a character list. -/
def dropLeadingWS : List Char → List Char
  | [] => []
  | c :: cs => if c.isWhitespace then dropLeadingWS cs else c :: cs

/-- Drop every trailing whitespace character of a character list. -/
def dropTrailingWS (l : List Char) : List Char :=
  (dropLeadingWS l.reverse).reverse

/-- Strip leading and trailing whitespace from a character list. -/
def stripChars (l : List Char) : List Char :=
  dropTrailingWS (dropLeadingWS l)

/-- Model of the Python built-in `str.strip()` with no argument: remove
leading and trailing whitespace.  (Python strips a slightly larger
whitespace set than `Char.isWhitespace`; the difference — vertical tab,
form feed — is irrelevant to CSV headers.) -/
def pyStrip (s : String) : String :=
  String.mk (stripChars s.data)

/-- Model of the Python built-in `str.splitlines()`, restricted to LF line
breaks: the empty string yields no lines, otherwise split on newline.  The
loader only inspects whether the result is empty and its first line; a
carriage return left at the end of the first line by a CRLF file is removed
by the subsequent `pyStrip` of each column name. -/
def splitlines (s : String) : List String :=
  if s = "" then [] else pySplit s '\n'

/-- Embedding of `get_csv_columns` (source lines 156-168): read the object
body, split into lines, and map `strip` over the comma-separated fields of
the header line.  The S3 `get_object` read itself is recorded as an event by
the caller. -/
def get_csv_columns (csv_content : String) : List String :=
  match splitlines csv_content with
  | [] => []
  | header_line :: _ => (pySplit header_line ',').map pyStrip

/-- Look a table up in the warehouse catalog by full name. -/
def lookupTable (db : Warehouse) (t : String) : Option Table :=
  match db with
  | [] => none
  | (n, tb) :: rest => if n = t then some tb else lookupTable rest t

/-- Embedding of `check_table_exists` (lines 170-178).  Line 174 first
unpacks `full_table_name.split(".")` into exactly two variables: when the
split does not yield exactly two parts (the table segment itself carries a
dot) this raises a ValueError before the catalog query is issued.
Otherwise the `information_schema.tables` probe reports existence. -/
def check_table_exists (db : Warehouse) (full_table_name : String) :
    Except LoadError Bool :=
  if (pySplit full_table_name '.').length = 2 then
    Except.ok (lookupTable db full_table_name).isSome
  else
    Except.error LoadError.unpackValueError

/-- Embedding of `get_table_columns` (lines 180-191).  Line 185 performs
the same two-variable unpack of `full_table_name.split(".")` as the
existence probe, raising a ValueError before the query for a dotted table
name; otherwise it returns the ordered column names of the table per
`information_schema.columns`, empty when the table does not exist (the
query returns no rows). -/
def get_table_columns (db : Warehouse) (full_table_name : String) :
    Except LoadError (List String) :=
  if (pySplit full_table_name '.').length = 2 then
    Except.ok
      (match lookupTable db full_table_name with
       | some tb => tb.columns
       | none => [])
  else
    Except.error LoadError.unpackValueError

/-- The column-list comparison the loader performs at lines 98 and 118
(`existing_columns != csv_columns`, negated): Python list equality, i.e.
element-for-element equality of the two ordered name sequences. -/
def schema_matches (existing_columns csv_columns : List String) : Bool :=
  existing_columns == csv_columns

/-- Effect of `DROP TABLE IF EXISTS t` on the catalog: remove every entry
named `t`, keep the rest. -/
def dropTable : Warehouse → String → Warehouse
  | [], _ => []
  | (n, tb) :: rest, t =>
    if n = t then dropTable rest t else (n, tb) :: dropTable rest t

/-- Effect of `CREATE TABLE t (...)` on the catalog: a fresh empty table.
(The loader only issues CREATE after a DROP or a negative existence probe.) -/
def setTable (db : Warehouse) (t : String) (tb : Table) : Warehouse :=
  dropTable db t ++ [(t, tb)]

/-- Update the named table in place, leaving every other table unchanged. -/
def updateTable : Warehouse → String → (Table → Table) → Warehouse
  | [], _, _ => []
  | (n, tb) :: rest, t, g =>
    if n = t then (n, g tb) :: updateTable rest t g
    else (n, tb) :: updateTable rest t g

/-- Semantics of one SQL statement on the catalog.  `files` gives the number
of data rows the COPY of a given `from_path` loads. -/
def applyOp (files : String → Nat) (db : Warehouse) (op : SqlOp) : Warehouse :=
  match op with
  | SqlOp.dropIfExists t => dropTable db t
  | SqlOp.create t cols => setTable db t ⟨cols, 0⟩
  | SqlOp.truncateTable t => updateTable db t (fun tb => ⟨tb.columns, 0⟩)
  | SqlOp.copy t path => updateTable db t (fun tb => ⟨tb.columns, tb.rows + files path⟩)

/-- Apply every mutating SQL statement of an event trace, in order. -/
def execQueries (files : String → Nat) (db : Warehouse) (events : List Event) : Warehouse :=
  events.foldl
    (fun d e =>
      match e with
      | Event.query op => applyOp files d op
      | _ => d)
    db

/-- The warehouse state after the invocation: psycopg2 transaction
semantics — the executed statements take effect only if the invocation
reached `connection.commit()`, otherwise the transaction is rolled back and
the warehouse is unchanged. -/
def finalWarehouse (files : String → Nat) (db : Warehouse) (events : List Event) : Warehouse :=
  if Event.commit ∈ events then execQueries files db events else db

/-- Between two catalog states: every table of the first is present in the
second with the same ordered column list (its row count may differ). -/
def columnsPreserved (db db' : Warehouse) : Prop :=
  ∀ t tb, lookupTable db t = some tb →
    ∃ tb', lookupTable db' t = some tb' ∧ tb'.columns = tb.columns

/-- The mutating SQL statements of an event trace, in order. -/
def queriesOf (events : List Event) : List SqlOp :=
  events.filterMap
    (fun e =>
      match e with
      | Event.query op => some op
      | _ => none)

/-- Embedding of the routing part of `lambda_handler` (lines 26-33): split
the key on `/`, require at least four segments, and read off database,
lower-cased action, table, and the re-joined remainder as file name. -/
def parseKey (s3_key : String) : Except LoadError RoutingInfo :=
  let s3_key_split := pySplit s3_key '/'
  if s3_key_split.length < 4 then
    Except.error LoadError.malformedKey
  else
    Except.ok
      { database_name := s3_key_split.getD 0 ""
        action := pyToLower (s3_key_split.getD 1 "")
        table_name := s3_key_split.getD 2 ""
        file_name := pyJoin '/' (s3_key_split.drop 3) }

/-- Embedding of `lambda_handler` (source lines 6-154).  Parameters stand
for the event fields (`s3_bucket`, `s3_key`), the two clock reads, and the
results of the external reads the code performs (`file_size` from
`head_object`, `csv_content` from `get_object`), which are assumed to
succeed; `db` is the warehouse catalog at invocation time.  Returns the
output dictionary or the raised error, together with the ordered I/O event
trace of the invocation. -/
def lambda_handler (landed_timestamp loaded_timestamp : String)
    (s3_bucket s3_key : String) (file_size : Nat) (csv_content : String)
    (db : Warehouse) : Except LoadError Output × List Event :=
  let from_path := "s3://" ++ s3_bucket ++ "/" ++ s3_key
  let s3_key_split := pySplit s3_key '/'
  if s3_key_split.length < 4 then
    (Except.error LoadError.malformedKey, [])
  else
    let database_name := s3_key_split.getD 0 ""
    let action := pyToLower (s3_key_split.getD 1 "")
    let table_name := s3_key_split.getD 2 ""
    let full_table_name := "public." ++ table_name
    let evHead := [Event.s3HeadObject s3_bucket s3_key]
    let csv_columns := get_csv_columns csv_content
    let evCsv := evHead ++ [Event.s3GetObject s3_bucket s3_key]
    if csv_columns = [] then
      (Except.error LoadError.emptyCsv, evCsv)
    else
      let evConn := evCsv ++ [Event.connect database_name]
      match check_table_exists db full_table_name with
      | Except.error e =>
        -- crash of the line-174 unpack, before the catalog query is issued
        (Except.error e, evConn)
      | Except.ok table_exists =>
        let evProbe := evConn ++ [Event.catalogRead full_table_name]
        let mkOutput : String → Output := fun load_mode =>
          { s3_key := s3_key
            landed_timestamp := landed_timestamp
            loaded_timestamp := loaded_timestamp
            file_size := file_size
            table_name := full_table_name
            redshift_table_exists := true
            load_mode := load_mode }
        if action = "schema" then
          (Except.ok (mkOutput "schema"),
            evProbe ++
              [Event.query (SqlOp.dropIfExists full_table_name),
               Event.query (SqlOp.create full_table_name csv_columns),
               Event.query (SqlOp.copy full_table_name from_path),
               Event.commit])
        else if action = "append" then
          if table_exists then
            match get_table_columns db full_table_name with
            | Except.error e =>
              -- crash of the line-185 unpack, before its query is issued
              (Except.error e, evProbe)
            | Except.ok existing_columns =>
              let evCols := evProbe ++ [Event.catalogRead full_table_name]
              if schema_matches existing_columns csv_columns then
                (Except.ok (mkOutput "append"),
                  evCols ++ [Event.query (SqlOp.copy full_table_name from_path), Event.commit])
              else
                (Except.error LoadError.schemaMismatch, evCols)
          else
            (Except.ok (mkOutput "append"),
              evProbe ++
                [Event.query (SqlOp.create full_table_name csv_columns),
                 Event.query (SqlOp.copy full_table_name from_path),
                 Event.commit])
        else if action = "truncate" then
          if table_exists then
            match get_table_columns db full_table_name with
            | Except.error e =>
              (Except.error e, evProbe)
            | Except.ok existing_columns =>
              let evCols := evProbe ++ [Event.catalogRead full_table_name]
              if schema_matches existing_columns csv_columns then
                (Except.ok (mkOutput "truncate"),
                  evCols ++
                    [Event.query (SqlOp.truncateTable full_table_name),
                     Event.query (SqlOp.copy full_table_name from_path),
                     Event.commit])
              else
                (Except.error LoadError.schemaMismatch, evCols)
          else
            (Except.ok (mkOutput "truncate"),
              evProbe ++
                [Event.query (SqlOp.create full_table_name csv_columns),
                 Event.query (SqlOp.truncateTable full_table_name),
                 Event.query (SqlOp.copy full_table_name from_path),
                 Event.commit])
        else
          (Except.error (LoadError.unknownAction action), evProbe)

end S3ToRedshift

namespace LogToDynamoDB

/-- The event consumed by `log_to_dynamodb_lambda/lambda_function.py`
(the output of the loader).  The keys read with `event[...]` are modelled
as plain fields (the code would raise `KeyError` otherwise); the keys read
with `event.get(..., default)` are modelled as `Option` fields. -/
structure AuditEvent where
  s3_key : String
  landed_timestamp : String
  loaded_timestamp : String
  file_size : Nat
  table_name : String
  schema_version : Option String
  redshift_table_exists : Option Bool
  load_mode : Option String
deriving DecidableEq, Repr

/-- The item the audit writer puts into DynamoDB (source lines 24-37).
The first field models the `table_prefix` attribute of the item. -/
structure AuditItem where
  table_prefix_value : String
  file_key : String
  landed_timestamp : String
  loaded_timestamp : String
  file_size : Nat
  table_name : String
  schema_version_timestamp : String
  redshift_table_exists : Bool
  load_mode : String
  status : String
  table_status : String
deriving DecidableEq, Repr

/-- Embedding of the audit writer `lambda_handler` (source lines 4-57).
The code indexes `s3_key_split[0]`, `[1]` and `[2]` without a length
check; a key with fewer than three segments would raise `IndexError`,
modelled as `none`.  The DynamoDB `put_item` itself is an external write
of the returned item and is not modelled further. -/
def lambda_handler (event : AuditEvent) : Option AuditItem :=
  let schema_version := event.schema_version.getD "unknown"
  let redshift_table_exists := event.redshift_table_exists.getD false
  let load_mode := event.load_mode.getD "append"
  let s3_key_split := S3ToRedshift.pySplit event.s3_key '/'
  if s3_key_split.length < 3 then
    none
  else
    let database_name := s3_key_split.getD 0 ""
    let schema_name := s3_key_split.getD 1 ""
    let table_name := s3_key_split.getD 2 ""
    some
      { table_prefix_value := database_name ++ "." ++ schema_name ++ "." ++ table_name
        file_key := event.s3_key
        landed_timestamp := event.landed_timestamp
        loaded_timestamp := event.loaded_timestamp
        file_size := event.file_size
        table_name := event.table_name
        schema_version_timestamp := schema_version
        redshift_table_exists := redshift_table_exists
        load_mode := load_mode
        status := "SUCCESS"
        table_status := "exists/match" }

end LogToDynamoDB

namespace ApiLambda

/-- A record of the monitoring store, restricted to the two attributes the
query handler filters on. -/
structure MonRecord where
  table_name : String
  landed_timestamp : Int
deriving DecidableEq, Repr

/-- The body of an API response: a JSON error object, the opaque
stringified exception of the catch-all branch, or the list of matching
records. -/
inductive ApiBody where
  | err (msg : String)
  | internalError
  | records (items : List MonRecord)
deriving DecidableEq, Repr

/-- An API Gateway response: status code and body. -/
structure ApiResponse where
  statusCode : Nat
  body : ApiBody
deriving DecidableEq, Repr

/-- The `queryStringParameters` member of the inbound event: the key can be
absent (then `event.get` substitutes an empty dict), present with the JSON
value `null` (as API Gateway sends when there is no query string — then
`query_params.get` raises `AttributeError`, caught by the handler), or a
mapping. -/
inductive QSP where
  | absent
  | null
  | params (m : List (String × String))
deriving DecidableEq, Repr

/-- Model of the Python `dict.get` with default `None` on a string map. -/
def qget (m : List (String × String)) (k : String) : Option String :=
  match m with
  | [] => none
  | (k0, v) :: rest => if k0 = k then some v else qget rest k

/-- Python truthiness of an optional string: `None` and the empty string
are falsy. -/
def pyTruthy (o : Option String) : Bool :=
  match o with
  | none => false
  | some s => !(s == "")

/-- Accumulate the value of a nonempty all-digit character list. -/
def digitsVal (l : List Char) (acc : Nat) : Option Nat :=
  match l with
  | [] => some acc
  | c :: cs => if c.isDigit then digitsVal cs (acc * 10 + (c.toNat - 48)) else none

/-- Model of the Python built-in `int()` on a string: optional surrounding
whitespace, an optional sign, then at least one ASCII digit; anything else
raises `ValueError`, modelled as `none`.  (Python additionally accepts
underscore digit grouping and non-ASCII digits; irrelevant here.) -/
def pyInt (s : String) : Option Int :=
  match (S3ToRedshift.pyStrip s).data with
  | [] => none
  | '-' :: ds => if ds = [] then none else (digitsVal ds 0).map (fun n => -(n : Int))
  | '+' :: ds => if ds = [] then none else (digitsVal ds 0).map (fun n => (n : Int))
  | ds => (digitsVal ds 0).map (fun n => (n : Int))

/-- The DynamoDB scan with the filter expression the handler builds:
`Attr(table_name).eq(tn)`, conjoined with
`Attr(landed_timestamp).gte(bound)` when a bound was parsed. -/
def scanFilter (tn : String) (bound : Option Int) (db : List MonRecord) : List MonRecord :=
  db.filter
    (fun r =>
      r.table_name == tn &&
        (match bound with
         | none => true
         | some b => decide (b ≤ r.landed_timestamp)))

/-- The body of the `try` block once `query_params` is a mapping
(source lines 31-74). -/
def handleQuery (query_params : List (String × String)) (db : List MonRecord) : ApiResponse :=
  let table_name := qget query_params "table_name"
  let landed_timestamp := qget query_params "landed_timestamp"
  if pyTruthy table_name = false then
    ApiResponse.mk 400 (ApiBody.err "table_name parameter is required")
  else if pyTruthy landed_timestamp = false then
    ApiResponse.mk 200 (ApiBody.records (scanFilter (table_name.getD "") none db))
  else
    match pyInt (landed_timestamp.getD "") with
    | none => ApiResponse.mk 400 (ApiBody.err "timestamp must be an integer")
    | some b => ApiResponse.mk 200 (ApiBody.records (scanFilter (table_name.getD "") (some b) db))

/-- Embedding of the monitoring query `lambda_handler`
(source lines 22-81).  `db` is the current content of the
`etl_pipeline_monitoring` DynamoDB table; the scan is assumed to succeed.
When `queryStringParameters` is `null`, `query_params.get` raises
`AttributeError`, the catch-all `except` converts it into a 500 response
(source lines 76-81). -/
def lambda_handler (qsp : QSP) (db : List MonRecord) : ApiResponse :=
  match qsp with
  | QSP.null => ApiResponse.mk 500 ApiBody.internalError
  | QSP.absent => handleQuery [] db
  | QSP.params m => handleQuery m db

end ApiLambda

open S3ToRedshift

/-- Looking up a table after DROP: the dropped name is gone, every other
name is untouched. -/
theorem lookupTable_dropTable (db : Warehouse) (t t' : String) :
    lookupTable (dropTable db t) t' = if t' = t then none else lookupTable db t' := by
  induction db with
  | nil => simp [dropTable, lookupTable]
  | cons p rest ih =>
    obtain ⟨n, tb⟩ := p
    simp only [dropTable, lookupTable]
    by_cases hnt : n = t <;> by_cases ht' : n = t' <;> simp_all [lookupTable]

/-- Lookup distributes over catalog concatenation, first catalog wins. -/
theorem lookupTable_append (db1 db2 : Warehouse) (t : String) :
    lookupTable (db1 ++ db2) t =
      match lookupTable db1 t with
      | some tb => some tb
      | none => lookupTable db2 t := by
  induction db1 with
  | nil => simp [lookupTable]
  | cons p rest ih =>
    obtain ⟨n, tb⟩ := p
    by_cases h : n = t
    · simp [lookupTable, h]
    · simp [lookupTable, h, ih]

/-- Looking up a table after CREATE: the created name resolves to the fresh
table, every other name is untouched. -/
theorem lookupTable_setTable (db : Warehouse) (t : String) (tb : Table) (t' : String) :
    lookupTable (setTable db t tb) t' = if t' = t then some tb else lookupTable db t' := by
  rw [setTable, lookupTable_append, lookupTable_dropTable]
  by_cases h : t' = t
  · simp [h, lookupTable]
  · have h2 : ¬ t = t' := fun hc => h hc.symm
    simp only [h, if_false]
    cases hl : lookupTable db t'
    · simp [lookupTable, h2]
    · rfl

/-- Looking up a table after an in-place update: the updated name resolves
to the transformed table, every other name is untouched. -/
theorem lookupTable_updateTable (db : Warehouse) (t : String) (g : Table → Table) (t' : String) :
    lookupTable (updateTable db t g) t' =
      if t' = t then (lookupTable db t').map g else lookupTable db t' := by
  induction db with
  | nil => simp [updateTable, lookupTable]
  | cons p rest ih =>
    obtain ⟨n, tb⟩ := p
    by_cases hnt : n = t <;> by_cases ht' : n = t'
    · have h3 : t' = t := ht'.symm.trans hnt
      simp [updateTable, lookupTable, hnt, ht', h3]
    · have h3 : ¬ t' = t := fun hc => ht' (hnt.trans hc.symm)
      have h4 : ¬ t = t' := fun hc => ht' (hnt.trans hc)
      simp [updateTable, lookupTable, hnt, ht', h3, h4, ih]
    · have h3 : ¬ t' = t := fun hc => hnt (ht'.trans hc)
      simp [updateTable, lookupTable, hnt, ht', h3]
    · simp [updateTable, lookupTable, hnt, ht', ih]

/-- Column preservation is reflexive. -/
theorem columnsPreserved_refl (db : Warehouse) : columnsPreserved db db :=
  fun _ tb h => ⟨tb, h, rfl⟩

/-- Column preservation is transitive. -/
theorem columnsPreserved_trans {db1 db2 db3 : Warehouse}
    (h12 : columnsPreserved db1 db2) (h23 : columnsPreserved db2 db3) :
    columnsPreserved db1 db3 := by
  intro t tb h
  obtain ⟨tb2, h2, hc2⟩ := h12 t tb h
  obtain ⟨tb3, h3, hc3⟩ := h23 t tb2 h2
  exact ⟨tb3, h3, hc3.trans hc2⟩

/-- An in-place update whose transformation keeps the column list preserves
every column list in the catalog. -/
theorem columnsPreserved_updateTable (db : Warehouse) (t0 : String)
    (g : Table → Table) (hg : ∀ x, (g x).columns = x.columns) :
    columnsPreserved db (updateTable db t0 g) := by
  intro t tb h
  rw [lookupTable_updateTable]
  by_cases ht : t = t0
  · subst ht
    rw [if_pos rfl, h]
    exact ⟨g tb, by simp, hg tb⟩
  · rw [if_neg ht]
    exact ⟨tb, h, rfl⟩

/-- Creating a table under a name that is absent from the catalog preserves
every existing column list. -/
theorem columnsPreserved_setTable_absent (db : Warehouse) (t0 : String)
    (tb0 : Table) (h0 : lookupTable db t0 = none) :
    columnsPreserved db (setTable db t0 tb0) := by
  intro t tb h
  rw [lookupTable_setTable]
  by_cases ht : t = t0
  · rw [ht] at h
    rw [h0] at h
    exact absurd h (by simp)
  · exact ⟨tb, by simp [ht, h], rfl⟩

/-- Splitting a character list never yields an empty list of chunks. -/
theorem splitChar_ne_nil (sep : Char) : ∀ l : List Char, splitChar sep l ≠ []
  | [] => by simp [splitChar]
  | c :: cs => by
    simp only [splitChar]
    cases splitChar sep cs with
    | nil => by_cases hc : c = sep <;> simp [hc]
    | cons hd tl => by_cases hc : c = sep <;> simp [hc]

/-- The number of chunks produced by splitting is the number of separator
occurrences plus one. -/
theorem splitChar_length (sep : Char) (l : List Char) :
    (splitChar sep l).length = l.count sep + 1 := by
  induction l with
  | nil => simp [splitChar]
  | cons c cs ih =>
    simp only [splitChar]
    cases h : splitChar sep cs with
    | nil => exact absurd h (splitChar_ne_nil sep cs)
    | cons hd tl =>
      rw [h] at ih
      by_cases hc : c = sep
      · rw [if_pos hc]
        simp only [List.length_cons] at ih ⊢
        rw [List.count_cons]
        simp [hc]
        omega
      · rw [if_neg hc]
        simp only [List.length_cons] at ih ⊢
        rw [List.count_cons]
        simp [hc]
        omega

/-- The split of `public.<segment>` on the dot yields the dot count of the
segment plus two parts. -/
theorem pySplit_fullname_length (seg : String) :
    (pySplit ("public." ++ seg) '.').length = seg.data.count '.' + 2 := by
  rw [pySplit, List.length_map, splitChar_length]
  have hdata : ("public." ++ seg).data = "public.".data ++ seg.data := rfl
  rw [hdata, List.count_append]
  have h1 : "public.".data.count '.' = 1 := by decide
  rw [h1]
  omega

/-- For a dot-free table segment the line-174 unpack of the loader
succeeds: the split of the full table name has exactly two parts. -/
theorem fullname_guard_of_dotfree (seg : String) (h : ('.' : Char) ∉ seg.data) :
    (pySplit ("public." ++ seg) '.').length = 2 := by
  rw [pySplit_fullname_length]
  have h0 : seg.data.count '.' = 0 := List.count_eq_zero.mpr h
  omega

/-- For a dotted table segment the line-174 unpack fails: the split of the
full table name has more than two parts. -/
theorem fullname_guard_of_dot (seg : String) (h : ('.' : Char) ∈ seg.data) :
    (pySplit ("public." ++ seg) '.').length ≠ 2 := by
  rw [pySplit_fullname_length]
  have h0 : 0 < seg.data.count '.' := List.count_pos_iff.mpr h
  omega

/-- When the unpack guard holds, the existence probe reports catalog
existence. -/
theorem check_table_exists_dotfree (db : Warehouse) (ft : String)
    (hg : (pySplit ft '.').length = 2) :
    check_table_exists db ft = Except.ok (lookupTable db ft).isSome := by
  rw [check_table_exists, if_pos hg]

/-- When the unpack guard fails, the existence probe raises the unpack
ValueError. -/
theorem check_table_exists_dotted (db : Warehouse) (ft : String)
    (hg : (pySplit ft '.').length ≠ 2) :
    check_table_exists db ft = Except.error LoadError.unpackValueError := by
  rw [check_table_exists, if_neg hg]

/-- When the unpack guard holds and the table is present, the column probe
returns its ordered column list. -/
theorem get_table_columns_dotfree (db : Warehouse) (ft : String)
    (hg : (pySplit ft '.').length = 2) (tb : Table)
    (hl : lookupTable db ft = some tb) :
    get_table_columns db ft = Except.ok tb.columns := by
  rw [get_table_columns, if_pos hg, hl]

/-- C1 counterexample: an invocation with action `schema` whose table
segment carries a dot, key `dev/schema/a.b/f.csv`.  `full_table_name`
becomes `public.a.b`, the two-variable unpack in `check_table_exists`
(source line 174) raises a ValueError right after the connection is
opened, and the invocation fails with no DDL and no COPY executed — not
the DROP/CREATE/COPY load and `schema` load_mode that the claim states
for every schema-action invocation. -/
theorem c1_counterexample :
    pyToLower ((pySplit "dev/schema/a.b/f.csv" '/').getD 1 "") = "schema" ∧
    lambda_handler "L" "T" "b" "dev/schema/a.b/f.csv" 10 "id,amount\n1,2" [] =
      (Except.error LoadError.unpackValueError,
        [Event.s3HeadObject "b" "dev/schema/a.b/f.csv",
         Event.s3GetObject "b" "dev/schema/a.b/f.csv",
         Event.connect "dev"]) ∧
    queriesOf
        [Event.s3HeadObject "b" "dev/schema/a.b/f.csv",
         Event.s3GetObject "b" "dev/schema/a.b/f.csv",
         Event.connect "dev"] = [] :=
  ⟨rfl, rfl, rfl⟩

/-- C1 amended: for every invocation with action `schema` (segment 1 of
the key, lower-cased) on a well-formed key with a non-empty CSV, whose
table segment contains no dot, the loader succeeds, the operations
executed against the warehouse are exactly DROP IF EXISTS, then CREATE,
then COPY, in that order, regardless of the prior catalog state, the
reported `load_mode` is `schema`, and afterwards the table exists.  When
the table segment does contain a dot, the invocation instead fails with
the ValueError of the line-174 unpack in `check_table_exists`, right
after connecting and before any DDL. -/
theorem c1_schema_action_dotfree (landed loaded bucket key : String) (size : Nat)
    (content : String) (db : Warehouse)
    (h4 : 4 ≤ (pySplit key '/').length)
    (hact : pyToLower ((pySplit key '/').getD 1 "") = "schema")
    (hcsv : get_csv_columns content ≠ []) :
    (('.' : Char) ∉ ((pySplit key '/').getD 2 "").data →
      lambda_handler landed loaded bucket key size content db =
        (Except.ok (Output.mk key landed loaded size
            ("public." ++ (pySplit key '/').getD 2 "") true "schema"),
          [Event.s3HeadObject bucket key, Event.s3GetObject bucket key,
           Event.connect ((pySplit key '/').getD 0 ""),
           Event.catalogRead ("public." ++ (pySplit key '/').getD 2 ""),
           Event.query (SqlOp.dropIfExists ("public." ++ (pySplit key '/').getD 2 "")),
           Event.query (SqlOp.create ("public." ++ (pySplit key '/').getD 2 "") (get_csv_columns content)),
           Event.query (SqlOp.copy ("public." ++ (pySplit key '/').getD 2 "") ("s3://" ++ bucket ++ "/" ++ key)),
           Event.commit]) ∧
      (∀ files, (lookupTable
          (finalWarehouse files db (lambda_handler landed loaded bucket key size content db).2)
          ("public." ++ (pySplit key '/').getD 2 "")).isSome = true)) ∧
    (('.' : Char) ∈ ((pySplit key '/').getD 2 "").data →
      lambda_handler landed loaded bucket key size content db =
        (Except.error LoadError.unpackValueError,
          [Event.s3HeadObject bucket key, Event.s3GetObject bucket key,
           Event.connect ((pySplit key '/').getD 0 "")])) := by
  have h' : ¬ (pySplit key '/').length < 4 := by omega
  have hact' : pyToLower ((pySplit key '/')[1]?.getD "") = "schema" := by
    simpa [List.getD_eq_getElem?_getD] using hact
  constructor
  · intro hdot
    have hdot' : ('.' : Char) ∉ ((pySplit key '/')[2]?.getD "").data := by
      simpa [List.getD_eq_getElem?_getD] using hdot
    have hprobe : check_table_exists db ("public." ++ (pySplit key '/')[2]?.getD "") =
        Except.ok (lookupTable db ("public." ++ (pySplit key '/')[2]?.getD "")).isSome :=
      check_table_exists_dotfree db _ (fullname_guard_of_dotfree _ hdot')
    have h1 : lambda_handler landed loaded bucket key size content db =
        (Except.ok (Output.mk key landed loaded size
            ("public." ++ (pySplit key '/').getD 2 "") true "schema"),
          [Event.s3HeadObject bucket key, Event.s3GetObject bucket key,
           Event.connect ((pySplit key '/').getD 0 ""),
           Event.catalogRead ("public." ++ (pySplit key '/').getD 2 ""),
           Event.query (SqlOp.dropIfExists ("public." ++ (pySplit key '/').getD 2 "")),
           Event.query (SqlOp.create ("public." ++ (pySplit key '/').getD 2 "") (get_csv_columns content)),
           Event.query (SqlOp.copy ("public." ++ (pySplit key '/').getD 2 "") ("s3://" ++ bucket ++ "/" ++ key)),
           Event.commit]) := by
      simp [lambda_handler, h', hact', hcsv, hprobe]
    refine ⟨h1, fun files => ?_⟩
    rw [h1]
    simp [finalWarehouse, execQueries, applyOp,
      lookupTable_updateTable, lookupTable_setTable]
  · intro hdot
    have hdot' : ('.' : Char) ∈ ((pySplit key '/')[2]?.getD "").data := by
      simpa [List.getD_eq_getElem?_getD] using hdot
    have hprobe : check_table_exists db ("public." ++ (pySplit key '/')[2]?.getD "") =
        Except.error LoadError.unpackValueError :=
      check_table_exists_dotted db _ (fullname_guard_of_dot _ hdot')
    simp [lambda_handler, h', hact', hcsv, hprobe]

/-- C1 amended witness: the schema scenario of the spec, dot-free table
segment `orders`, key `sales/schema/orders/file.csv` with header
`id,amount` against an empty catalog. -/
theorem c1_schema_action_dotfree_witness :
    (lambda_handler "L" "T" "b" "sales/schema/orders/file.csv" 10 "id,amount\n1,2" []).1 =
      Except.ok (Output.mk "sales/schema/orders/file.csv" "L" "T" 10 "public.orders" true "schema") := by
  have h := (c1_schema_action_dotfree "L" "T" "b" "sales/schema/orders/file.csv" 10 "id,amount\n1,2" []
    (by decide) (by decide) (by decide)).1 (by decide)
  rw [h.1]
  rfl

/-- C2 counterexample: an `append` invocation with a dotted table segment,
key `dev/append/a.b/f.csv`, against a catalog in which `public.a.b` exists
with columns differing from the CSV header.  The program raises the
ValueError of the line-174 unpack inside `check_table_exists`, before any
column comparison, and not the use-schema-action mismatch error the claim
states for every such invocation. -/
theorem c2_counterexample :
    pyToLower ((pySplit "dev/append/a.b/f.csv" '/').getD 1 "") = "append" ∧
    lookupTable [("public.a.b", Table.mk ["id", "total"] 5)] "public.a.b" =
      some (Table.mk ["id", "total"] 5) ∧
    ["id", "total"] ≠ get_csv_columns "id,amount\n1,2" ∧
    (lambda_handler "L" "T" "b" "dev/append/a.b/f.csv" 10 "id,amount\n1,2"
        [("public.a.b", Table.mk ["id", "total"] 5)]).1 =
      Except.error LoadError.unpackValueError ∧
    LoadError.unpackValueError ≠ LoadError.schemaMismatch :=
  ⟨rfl, rfl, by decide, rfl, by decide⟩

/-- C2 amended: for every invocation with action `append` or `truncate`
on a well-formed key with a proper CSV header, when the target table
exists and its ordered column list differs from the header columns: if the
table segment contains no dot, the invocation fails with the
schema-mismatch error (the raise site whose message instructs the caller
to use the `schema` action); if the table segment contains a dot, it fails
even earlier with the ValueError of the line-174 unpack.  In both cases no
mutating SQL at all is issued (in particular no TRUNCATE and no COPY) and
the warehouse is unchanged. -/
theorem c2_mismatch_fails_before_write_dotfree (landed loaded bucket key : String) (size : Nat)
    (content : String) (db : Warehouse) (tb : Table)
    (h4 : 4 ≤ (pySplit key '/').length)
    (hact : pyToLower ((pySplit key '/').getD 1 "") = "append" ∨
            pyToLower ((pySplit key '/').getD 1 "") = "truncate")
    (hcsv : get_csv_columns content ≠ [])
    (hex : lookupTable db ("public." ++ (pySplit key '/').getD 2 "") = some tb)
    (hmm : tb.columns ≠ get_csv_columns content) :
    (('.' : Char) ∉ ((pySplit key '/').getD 2 "").data →
      (lambda_handler landed loaded bucket key size content db).1 =
        Except.error LoadError.schemaMismatch) ∧
    (('.' : Char) ∈ ((pySplit key '/').getD 2 "").data →
      (lambda_handler landed loaded bucket key size content db).1 =
        Except.error LoadError.unpackValueError) ∧
    queriesOf (lambda_handler landed loaded bucket key size content db).2 = [] ∧
    (∀ files, finalWarehouse files db
        (lambda_handler landed loaded bucket key size content db).2 = db) := by
  have h' : ¬ (pySplit key '/').length < 4 := by omega
  simp only [List.getD_eq_getElem?_getD] at hact hex
  have hmatch : schema_matches tb.columns (get_csv_columns content) = false := by
    simp [schema_matches, hmm]
  by_cases hdot : ('.' : Char) ∈ ((pySplit key '/')[2]?.getD "").data
  · have hprobe : check_table_exists db ("public." ++ (pySplit key '/')[2]?.getD "") =
        Except.error LoadError.unpackValueError :=
      check_table_exists_dotted db _ (fullname_guard_of_dot _ hdot)
    have h1 : lambda_handler landed loaded bucket key size content db =
        (Except.error LoadError.unpackValueError,
          [Event.s3HeadObject bucket key, Event.s3GetObject bucket key,
           Event.connect ((pySplit key '/')[0]?.getD "")]) := by
      simp [lambda_handler, h', hcsv, hprobe]
    rw [h1]
    refine ⟨fun hc => absurd hdot ?_, fun _ => rfl, by simp [queriesOf], fun files => ?_⟩
    · simpa [List.getD_eq_getElem?_getD] using hc
    · simp [finalWarehouse]
  · have hguard : (pySplit ("public." ++ (pySplit key '/')[2]?.getD "") '.').length = 2 :=
      fullname_guard_of_dotfree _ hdot
    have hprobe : check_table_exists db ("public." ++ (pySplit key '/')[2]?.getD "") =
        Except.ok true := by
      rw [check_table_exists_dotfree db _ hguard, hex]
      rfl
    have hcols : get_table_columns db ("public." ++ (pySplit key '/')[2]?.getD "") =
        Except.ok tb.columns :=
      get_table_columns_dotfree db _ hguard tb hex
    obtain ha | ha := hact <;>
    · have h1 : lambda_handler landed loaded bucket key size content db =
          (Except.error LoadError.schemaMismatch,
            [Event.s3HeadObject bucket key, Event.s3GetObject bucket key,
             Event.connect ((pySplit key '/')[0]?.getD ""),
             Event.catalogRead ("public." ++ (pySplit key '/')[2]?.getD ""),
             Event.catalogRead ("public." ++ (pySplit key '/')[2]?.getD "")]) := by
        simp [lambda_handler, h', ha, hcsv, hprobe, hcols, hmatch]
      rw [h1]
      refine ⟨fun _ => rfl, fun hc => absurd ?_ hdot, by simp [queriesOf], fun files => ?_⟩
      · simpa [List.getD_eq_getElem?_getD] using hc
      · simp [finalWarehouse]

/-- C2 amended witness: the mismatch scenario of the spec, dot-free table
segment `orders`, key `sales/append/orders/f.csv` with header `id,amount`
against a table with columns `id, total`. -/
theorem c2_mismatch_fails_before_write_dotfree_witness :
    (lambda_handler "L" "T" "b" "sales/append/orders/f.csv" 10 "id,amount\n1,2"
        [("public.orders", Table.mk ["id", "total"] 5)]).1 =
      Except.error LoadError.schemaMismatch :=
  (c2_mismatch_fails_before_write_dotfree "L" "T" "b" "sales/append/orders/f.csv" 10
    "id,amount\n1,2" [("public.orders", Table.mk ["id", "total"] 5)]
    (Table.mk ["id", "total"] 5)
    (by decide) (Or.inl (by decide)) (by decide) (by decide) (by decide)).1 (by decide)

/-- C3: for every invocation with action `append` or `truncate` on a
well-formed key and any catalog and file, the invocation never issues a
DROP, it issues a CREATE only for a table name absent from the catalog
(first-load bootstrap), and the ordered column list of every pre-existing
table — in particular the target — is unchanged in the resulting
warehouse state. -/
theorem c3_no_structural_ddl (landed loaded bucket key : String) (size : Nat)
    (content : String) (db : Warehouse)
    (h4 : 4 ≤ (pySplit key '/').length)
    (hact : pyToLower ((pySplit key '/').getD 1 "") = "append" ∨
            pyToLower ((pySplit key '/').getD 1 "") = "truncate") :
    (∀ t0, SqlOp.dropIfExists t0 ∉
        queriesOf (lambda_handler landed loaded bucket key size content db).2) ∧
    (∀ t0 cols, SqlOp.create t0 cols ∈
        queriesOf (lambda_handler landed loaded bucket key size content db).2 →
      lookupTable db t0 = none) ∧
    (∀ files, columnsPreserved db
      (finalWarehouse files db (lambda_handler landed loaded bucket key size content db).2)) := by
  have h' : ¬ (pySplit key '/').length < 4 := by omega
  simp only [List.getD_eq_getElem?_getD] at hact
  by_cases hcsv : get_csv_columns content = []
  · have h2 : (lambda_handler landed loaded bucket key size content db).2 =
        [Event.s3HeadObject bucket key, Event.s3GetObject bucket key] := by
      simp [lambda_handler, h', hcsv]
    rw [h2]
    refine ⟨by simp [queriesOf], by simp [queriesOf], fun files => ?_⟩
    simp only [finalWarehouse]
    rw [if_neg (by simp)]
    exact columnsPreserved_refl db
  · by_cases hg : (pySplit ("public." ++ (pySplit key '/')[2]?.getD "") '.').length = 2
    · cases hlook : lookupTable db ("public." ++ (pySplit key '/')[2]?.getD "") with
      | none =>
        have hprobe : check_table_exists db ("public." ++ (pySplit key '/')[2]?.getD "") =
            Except.ok false := by
          rw [check_table_exists_dotfree db _ hg, hlook]
          rfl
        obtain ha | ha := hact
        · have h2 : (lambda_handler landed loaded bucket key size content db).2 =
              [Event.s3HeadObject bucket key, Event.s3GetObject bucket key,
               Event.connect ((pySplit key '/')[0]?.getD ""),
               Event.catalogRead ("public." ++ (pySplit key '/')[2]?.getD ""),
               Event.query (SqlOp.create ("public." ++ (pySplit key '/')[2]?.getD "")
                 (get_csv_columns content)),
               Event.query (SqlOp.copy ("public." ++ (pySplit key '/')[2]?.getD "")
                 ("s3://" ++ bucket ++ "/" ++ key)),
               Event.commit] := by
            simp [lambda_handler, h', hcsv, ha, hprobe]
          rw [h2]
          refine ⟨by simp [queriesOf], ?_, fun files => ?_⟩
          · intro t0 cols hmem
            simp [queriesOf] at hmem
            rw [hmem.1]
            exact hlook
          · simp only [finalWarehouse]
            rw [if_pos (by simp)]
            simp only [execQueries, List.foldl_cons, List.foldl_nil, applyOp]
            exact columnsPreserved_trans
              (columnsPreserved_setTable_absent db _ _ hlook)
              (columnsPreserved_updateTable _ _ _ (fun x => rfl))
        · have h2 : (lambda_handler landed loaded bucket key size content db).2 =
              [Event.s3HeadObject bucket key, Event.s3GetObject bucket key,
               Event.connect ((pySplit key '/')[0]?.getD ""),
               Event.catalogRead ("public." ++ (pySplit key '/')[2]?.getD ""),
               Event.query (SqlOp.create ("public." ++ (pySplit key '/')[2]?.getD "")
                 (get_csv_columns content)),
               Event.query (SqlOp.truncateTable ("public." ++ (pySplit key '/')[2]?.getD "")),
               Event.query (SqlOp.copy ("public." ++ (pySplit key '/')[2]?.getD "")
                 ("s3://" ++ bucket ++ "/" ++ key)),
               Event.commit] := by
            simp [lambda_handler, h', hcsv, ha, hprobe]
          rw [h2]
          refine ⟨by simp [queriesOf], ?_, fun files => ?_⟩
          · intro t0 cols hmem
            simp [queriesOf] at hmem
            rw [hmem.1]
            exact hlook
          · simp only [finalWarehouse]
            rw [if_pos (by simp)]
            simp only [execQueries, List.foldl_cons, List.foldl_nil, applyOp]
            exact columnsPreserved_trans
              (columnsPreserved_trans
                (columnsPreserved_setTable_absent db _ _ hlook)
                (columnsPreserved_updateTable _ _ (fun tb => ⟨tb.columns, 0⟩) (fun x => rfl)))
              (columnsPreserved_updateTable _ _
                (fun tb => ⟨tb.columns, tb.rows + files ("s3://" ++ bucket ++ "/" ++ key)⟩)
                (fun x => rfl))
      | some tb =>
        have hprobe : check_table_exists db ("public." ++ (pySplit key '/')[2]?.getD "") =
            Except.ok true := by
          rw [check_table_exists_dotfree db _ hg, hlook]
          rfl
        have hcols : get_table_columns db ("public." ++ (pySplit key '/')[2]?.getD "") =
            Except.ok tb.columns :=
          get_table_columns_dotfree db _ hg tb hlook
        by_cases hmatch : schema_matches tb.columns (get_csv_columns content) = true
        · obtain ha | ha := hact
          · have h2 : (lambda_handler landed loaded bucket key size content db).2 =
                [Event.s3HeadObject bucket key, Event.s3GetObject bucket key,
                 Event.connect ((pySplit key '/')[0]?.getD ""),
                 Event.catalogRead ("public." ++ (pySplit key '/')[2]?.getD ""),
                 Event.catalogRead ("public." ++ (pySplit key '/')[2]?.getD ""),
                 Event.query (SqlOp.copy ("public." ++ (pySplit key '/')[2]?.getD "")
                   ("s3://" ++ bucket ++ "/" ++ key)),
                 Event.commit] := by
              simp [lambda_handler, h', hcsv, ha, hprobe, hcols, hmatch]
            rw [h2]
            refine ⟨by simp [queriesOf], by simp [queriesOf], fun files => ?_⟩
            simp only [finalWarehouse]
            rw [if_pos (by simp)]
            simp only [execQueries, List.foldl_cons, List.foldl_nil, applyOp]
            exact columnsPreserved_updateTable _ _ _ (fun x => rfl)
          · have h2 : (lambda_handler landed loaded bucket key size content db).2 =
                [Event.s3HeadObject bucket key, Event.s3GetObject bucket key,
                 Event.connect ((pySplit key '/')[0]?.getD ""),
                 Event.catalogRead ("public." ++ (pySplit key '/')[2]?.getD ""),
                 Event.catalogRead ("public." ++ (pySplit key '/')[2]?.getD ""),
                 Event.query (SqlOp.truncateTable ("public." ++ (pySplit key '/')[2]?.getD "")),
                 Event.query (SqlOp.copy ("public." ++ (pySplit key '/')[2]?.getD "")
                   ("s3://" ++ bucket ++ "/" ++ key)),
                 Event.commit] := by
              simp [lambda_handler, h', hcsv, ha, hprobe, hcols, hmatch]
            rw [h2]
            refine ⟨by simp [queriesOf], by simp [queriesOf], fun files => ?_⟩
            simp only [finalWarehouse]
            rw [if_pos (by simp)]
            simp only [execQueries, List.foldl_cons, List.foldl_nil, applyOp]
            exact columnsPreserved_trans
              (columnsPreserved_updateTable _ _ (fun tb => ⟨tb.columns, 0⟩) (fun x => rfl))
              (columnsPreserved_updateTable _ _
                (fun tb => ⟨tb.columns, tb.rows + files ("s3://" ++ bucket ++ "/" ++ key)⟩)
                (fun x => rfl))
        · have hmatch' : schema_matches tb.columns (get_csv_columns content) = false := by
            simpa using hmatch
          obtain ha | ha := hact <;>
          · have h2 : (lambda_handler landed loaded bucket key size content db).2 =
                [Event.s3HeadObject bucket key, Event.s3GetObject bucket key,
                 Event.connect ((pySplit key '/')[0]?.getD ""),
                 Event.catalogRead ("public." ++ (pySplit key '/')[2]?.getD ""),
                 Event.catalogRead ("public." ++ (pySplit key '/')[2]?.getD "")] := by
              simp [lambda_handler, h', hcsv, ha, hprobe, hcols, hmatch']
            rw [h2]
            refine ⟨by simp [queriesOf], by simp [queriesOf], fun files => ?_⟩
            simp only [finalWarehouse]
            rw [if_neg (by simp)]
            exact columnsPreserved_refl db
    · have hprobe : check_table_exists db ("public." ++ (pySplit key '/')[2]?.getD "") =
          Except.error LoadError.unpackValueError :=
        check_table_exists_dotted db _ hg
      have h2 : (lambda_handler landed loaded bucket key size content db).2 =
          [Event.s3HeadObject bucket key, Event.s3GetObject bucket key,
           Event.connect ((pySplit key '/')[0]?.getD "")] := by
        simp [lambda_handler, h', hcsv, hprobe]
      rw [h2]
      refine ⟨by simp [queriesOf], by simp [queriesOf], fun files => ?_⟩
      simp only [finalWarehouse]
      rw [if_neg (by simp)]
      exact columnsPreserved_refl db

/-- C3 witness: an `append` against an existing matching table keeps the
column list of every pre-existing table. -/
theorem c3_no_structural_ddl_witness :
    columnsPreserved [("public.orders", Table.mk ["id", "amount"] 7)]
      (finalWarehouse (fun _ => 2) [("public.orders", Table.mk ["id", "amount"] 7)]
        (lambda_handler "L" "T" "b" "sales/append/orders/f.csv" 10 "id,amount\n1,2"
          [("public.orders", Table.mk ["id", "amount"] 7)]).2) :=
  (c3_no_structural_ddl "L" "T" "b" "sales/append/orders/f.csv" 10 "id,amount\n1,2"
    [("public.orders", Table.mk ["id", "amount"] 7)]
    (by decide) (Or.inl (by decide))).2.2 (fun _ => 2)

/-- C4: for every object key with fewer than four path segments the loader
fails with the malformed-key error and its event trace is empty: no
object-store read, no warehouse connection, no SQL at all is performed. -/
theorem c4_malformed_key_before_io (landed loaded bucket key : String) (size : Nat)
    (content : String) (db : Warehouse)
    (h : (pySplit key '/').length < 4) :
    lambda_handler landed loaded bucket key size content db =
      (Except.error LoadError.malformedKey, []) := by
  simp [lambda_handler, h]

/-- C4 witness: the spec scenario, key `bad/key` with two segments. -/
theorem c4_malformed_key_before_io_witness :
    lambda_handler "L" "T" "b" "bad/key" 10 "id\n1" [] =
      (Except.error LoadError.malformedKey, []) :=
  c4_malformed_key_before_io "L" "T" "b" "bad/key" 10 "id\n1" [] (by decide)

/-- C5: for every object key with at least four path segments, routing
extraction is total and deterministic (it is a pure function of the key and
always succeeds): database is segment 0, action is segment 1 lower-cased,
table is segment 2, and the file name is the remaining segments rejoined
with the path separator. -/
theorem c5_routing_extraction (key : String)
    (h4 : 4 ≤ (pySplit key '/').length) :
    parseKey key = Except.ok
      (RoutingInfo.mk ((pySplit key '/').getD 0 "")
        (pyToLower ((pySplit key '/').getD 1 ""))
        ((pySplit key '/').getD 2 "")
        (pyJoin '/' ((pySplit key '/').drop 3))) := by
  have h' : ¬ (pySplit key '/').length < 4 := by omega
  simp [parseKey, h']

/-- C5 witness: a five-segment key, whose trailing segments are rejoined
into the file name. -/
theorem c5_routing_extraction_witness :
    parseKey "sales/SCHEMA/orders/a/b.csv" = Except.ok
      (RoutingInfo.mk "sales" "schema" "orders" "a/b.csv") :=
  (c5_routing_extraction "sales/SCHEMA/orders/a/b.csv" (by decide)).trans (by rfl)

/-- C6: the column-list comparison of the loader is ordered and name-exact:
it reports a match exactly when the two sequences are element-for-element
equal, and in particular reordering, casing differences, and extra or
missing columns are all mismatches. -/
theorem c6_ordered_exact_comparison :
    (∀ a b : List String,
      (a = b → schema_matches a b = true) ∧ (a ≠ b → schema_matches a b = false)) ∧
    schema_matches ["a", "b"] ["b", "a"] = false ∧
    schema_matches ["a", "b"] ["A", "b"] = false ∧
    schema_matches ["a", "b"] ["a"] = false ∧
    schema_matches ["a", "b"] ["a", "b", "c"] = false ∧
    schema_matches ["a", "b"] ["a", "b"] = true := by
  refine ⟨fun a b => ⟨fun h => ?_, fun h => ?_⟩, by decide, by decide, by decide, by decide, by decide⟩
  · simp [schema_matches, h]
  · simp [schema_matches, h]

/-- C6 witness: the reordering example of the spec. -/
theorem c6_ordered_exact_comparison_witness :
    schema_matches ["a", "b"] ["b", "a"] = false :=
  (c6_ordered_exact_comparison.1 ["a", "b"] ["b", "a"]).2 (by decide)

/-- C7 counterexample: an `append` load against an empty warehouse — the
table did not exist before the load (the pre-load probe returns false),
yet the output field reporting table existence is `true`.  The claim that
the reported field equals the pre-load probe result is therefore false. -/
theorem c7_counterexample :
    (lambda_handler "L" "T" "b" "sales/append/orders/f.csv" 10 "id,amount\n1,2" []).1 =
      Except.ok (Output.mk "sales/append/orders/f.csv" "L" "T" 10 "public.orders" true "append") ∧
    check_table_exists [] "public.orders" = Except.ok false ∧
    (Output.mk "sales/append/orders/f.csv" "L" "T" 10 "public.orders" true "append").redshift_table_exists = true ∧
    (Except.ok false : Except LoadError Bool) ≠ Except.ok true :=
  ⟨rfl, rfl, rfl, by simp⟩

/-- C7 amended: for every successful load, the table-existence field of the
output record (`redshift_table_exists`, the spec calls it
`table_existed_before`) is the constant `true`; it reports post-load
existence, not the pre-load probe result. -/
theorem c7_reported_existence_always_true (landed loaded bucket key : String) (size : Nat)
    (content : String) (db : Warehouse) (out : Output)
    (h : (lambda_handler landed loaded bucket key size content db).1 = Except.ok out) :
    out.redshift_table_exists = true := by
  simp only [lambda_handler,
    apply_ite (Prod.fst (α := Except LoadError Output) (β := List Event))] at h
  repeat' split at h
  all_goals (cases h <;> rfl)

/-- C7 amended witness: the counterexample run, seen through the amended
statement. -/
theorem c7_reported_existence_always_true_witness :
    (Output.mk "sales/append/orders/f.csv" "L" "T" 10 "public.orders" true "append").redshift_table_exists = true :=
  c7_reported_existence_always_true "L" "T" "b" "sales/append/orders/f.csv" 10
    "id,amount\n1,2" [] _ (by rfl)

/-- C8: evaluation of the audit writer on the event the loader produces for
key `sales/append/orders/f.csv` (loaded table `public.orders`, so database
`sales`, warehouse schema `public`, table `orders`): the derived
`table_prefix` item attribute is `sales.append.orders` — its middle
component is the action segment of the key, not the warehouse schema name —
which differs from the `<database>.<schema>.<table>` form
`sales.public.orders` the claim states. -/
theorem c8_table_prefix_actual_value :
    (LogToDynamoDB.lambda_handler
        (LogToDynamoDB.AuditEvent.mk "sales/append/orders/f.csv" "L" "T" 10 "public.orders"
          none (some true) (some "append"))).map LogToDynamoDB.AuditItem.table_prefix_value =
      some "sales.append.orders" ∧
    "sales.append.orders" ≠ "sales.public.orders" :=
  ⟨rfl, by decide⟩

/-- Dropping leading whitespace is idempotent. -/
theorem dropLeadingWS_idem (l : List Char) :
    dropLeadingWS (dropLeadingWS l) = dropLeadingWS l := by
  induction l with
  | nil => rfl
  | cons c cs ih =>
    by_cases h : c.isWhitespace
    · simp [dropLeadingWS, h, ih]
    · simp [dropLeadingWS, h]

/-- Dropping leading whitespace yields a suffix of the input. -/
theorem dropLeadingWS_suffix (l : List Char) : dropLeadingWS l <:+ l := by
  induction l with
  | nil => exact List.suffix_refl []
  | cons c cs ih =>
    by_cases h : c.isWhitespace
    · simp only [dropLeadingWS, h, if_true]
      exact ih.trans (List.suffix_cons c cs)
    · simp [dropLeadingWS, h]

/-- The head of a list with leading whitespace dropped is not whitespace. -/
theorem dropLeadingWS_head : ∀ (l : List Char) (c : Char) (cs : List Char),
    dropLeadingWS l = c :: cs → c.isWhitespace = false := by
  intro l
  induction l with
  | nil =>
    intro c cs h
    cases h
  | cons a as ih =>
    intro c cs h
    by_cases ha : a.isWhitespace
    · rw [dropLeadingWS, if_pos ha] at h
      exact ih c cs h
    · rw [dropLeadingWS, if_neg ha] at h
      cases h
      simpa using ha

/-- A list whose head is not whitespace is unchanged by dropping leading
whitespace. -/
theorem dropLeadingWS_of_head (c : Char) (cs : List Char) (h : c.isWhitespace = false) :
    dropLeadingWS (c :: cs) = c :: cs := by
  simp [dropLeadingWS, h]

/-- Dropping trailing whitespace yields a prefix of the input. -/
theorem dropTrailingWS_prefix (l : List Char) : dropTrailingWS l <+: l := by
  rw [dropTrailingWS]
  have h := dropLeadingWS_suffix l.reverse
  have h2 := List.reverse_prefix.mpr h
  rwa [List.reverse_reverse] at h2

/-- Dropping trailing whitespace is idempotent. -/
theorem dropTrailingWS_idem (l : List Char) :
    dropTrailingWS (dropTrailingWS l) = dropTrailingWS l := by
  rw [dropTrailingWS, dropTrailingWS, List.reverse_reverse, dropLeadingWS_idem]

/-- Stripping both ends of whitespace is idempotent. -/
theorem stripChars_idem (l : List Char) : stripChars (stripChars l) = stripChars l := by
  rw [stripChars, stripChars]
  have hmm : dropLeadingWS (dropLeadingWS l) = dropLeadingWS l := dropLeadingWS_idem l
  have hdl : dropLeadingWS (dropTrailingWS (dropLeadingWS l)) = dropTrailingWS (dropLeadingWS l) := by
    cases hd : dropTrailingWS (dropLeadingWS l) with
    | nil => rfl
    | cons c cs =>
      have hpre : dropTrailingWS (dropLeadingWS l) <+: dropLeadingWS l :=
        dropTrailingWS_prefix (dropLeadingWS l)
      rw [hd] at hpre
      obtain ⟨t, ht⟩ := hpre
      have hc : c.isWhitespace = false := by
        apply dropLeadingWS_head (dropLeadingWS l) c (cs ++ t)
        rw [hmm, ← ht]
        simp
      exact dropLeadingWS_of_head c cs hc
  rw [hdl, dropTrailingWS_idem]

/-- The model of Python strip is idempotent: its result carries no leading
or trailing whitespace. -/
theorem pyStrip_idem (s : String) : pyStrip (pyStrip s) = pyStrip s := by
  unfold pyStrip
  rw [show (String.mk (stripChars s.data)).data = stripChars s.data from rfl, stripChars_idem]

/-- C9: every column name extracted from the CSV header is stripped of
leading and trailing whitespace (stripping it again changes nothing), and
in particular the header line with fields `id` and `amount` padded by
spaces yields exactly the columns `id` and `amount`; the loader then uses
this very list both for table creation and for the comparison against
existing columns. -/
theorem c9_header_columns_trimmed :
    (∀ content col, col ∈ get_csv_columns content → pyStrip col = col) ∧
    get_csv_columns " id , amount \n1,2" = ["id", "amount"] := by
  refine ⟨fun content col hmem => ?_, by decide⟩
  unfold get_csv_columns at hmem
  cases hsl : splitlines content with
  | nil =>
    rw [hsl] at hmem
    cases hmem
  | cons hd tl =>
    rw [hsl] at hmem
    simp only [List.mem_map] at hmem
    obtain ⟨raw, _, rfl⟩ := hmem
    exact pyStrip_idem raw

/-- C9 witness: the first column of the padded example header is already
stripped. -/
theorem c9_header_columns_trimmed_witness : pyStrip "id" = "id" :=
  c9_header_columns_trimmed.1 " id , amount \n1,2" "id" (by decide)

/-- C10 counterexample: a request that supplies `landed_timestamp` as the
empty string — a value the Python `int()` rejects, so a non-integer
parameter — yet the handler returns HTTP 200 with the unfiltered matching
records instead of the HTTP 400 the claim states: the code tests the
truthiness of the parameter before parsing it, so an empty string bypasses
the integer check. -/
theorem c10_counterexample :
    ApiLambda.lambda_handler
        (ApiLambda.QSP.params [("table_name", "orders"), ("landed_timestamp", "")])
        [ApiLambda.MonRecord.mk "orders" 5] =
      ApiLambda.ApiResponse.mk 200
        (ApiLambda.ApiBody.records [ApiLambda.MonRecord.mk "orders" 5]) ∧
    ApiLambda.pyInt "" = none ∧
    (200 : Nat) ≠ 400 :=
  ⟨rfl, rfl, by decide⟩

/-- C10 amended: the monitoring query handler is total on the modelled
requests and always answers 200, 400 or 500.  A `null`
`queryStringParameters` object makes the parameter lookup itself raise and
is answered 500 by the catch-all.  Otherwise: a missing or empty
`table_name` yields 400; a missing or empty `landed_timestamp` yields 200
with the records whose `table_name` equals the given value; a non-empty
`landed_timestamp` that does not parse as an integer yields 400; one that
parses to `b` yields 200 with the records whose `table_name` matches and
whose `landed_timestamp` is at least `b` — membership in the returned
record list is exactly that conjunction. -/
theorem c10_api_response_cases (qsp : ApiLambda.QSP) (m : List (String × String))
    (db : List ApiLambda.MonRecord) :
    ((ApiLambda.lambda_handler qsp db).statusCode = 200 ∨
     (ApiLambda.lambda_handler qsp db).statusCode = 400 ∨
     (ApiLambda.lambda_handler qsp db).statusCode = 500) ∧
    ApiLambda.lambda_handler ApiLambda.QSP.null db =
      ApiLambda.ApiResponse.mk 500 ApiLambda.ApiBody.internalError ∧
    (ApiLambda.pyTruthy (ApiLambda.qget m "table_name") = false →
      ApiLambda.lambda_handler (ApiLambda.QSP.params m) db =
        ApiLambda.ApiResponse.mk 400
          (ApiLambda.ApiBody.err "table_name parameter is required")) ∧
    (∀ tn, ApiLambda.qget m "table_name" = some tn → tn ≠ "" →
      ((ApiLambda.pyTruthy (ApiLambda.qget m "landed_timestamp") = false →
        ApiLambda.lambda_handler (ApiLambda.QSP.params m) db =
          ApiLambda.ApiResponse.mk 200
            (ApiLambda.ApiBody.records (ApiLambda.scanFilter tn none db))) ∧
      (∀ ts, ApiLambda.qget m "landed_timestamp" = some ts → ts ≠ "" →
        ((ApiLambda.pyInt ts = none →
          ApiLambda.lambda_handler (ApiLambda.QSP.params m) db =
            ApiLambda.ApiResponse.mk 400
              (ApiLambda.ApiBody.err "timestamp must be an integer")) ∧
        (∀ b, ApiLambda.pyInt ts = some b →
          ApiLambda.lambda_handler (ApiLambda.QSP.params m) db =
            ApiLambda.ApiResponse.mk 200
              (ApiLambda.ApiBody.records (ApiLambda.scanFilter tn (some b) db))))))) ∧
    (∀ tn b r, r ∈ ApiLambda.scanFilter tn (some b) db ↔
      r ∈ db ∧ r.table_name = tn ∧ b ≤ r.landed_timestamp) := by
  refine ⟨?_, rfl, ?_, ?_, ?_⟩
  · cases qsp with
    | null => simp [ApiLambda.lambda_handler]
    | absent =>
      simp [ApiLambda.lambda_handler, ApiLambda.handleQuery, ApiLambda.qget, ApiLambda.pyTruthy]
    | params m' =>
      simp only [ApiLambda.lambda_handler, ApiLambda.handleQuery]
      repeat' split
      all_goals simp
  · intro hfalse
    simp [ApiLambda.lambda_handler, ApiLambda.handleQuery, hfalse]
  · intro tn htn hne
    have htr : ApiLambda.pyTruthy (ApiLambda.qget m "table_name") = true := by
      simp [htn, ApiLambda.pyTruthy, hne]
    have htr2 : ApiLambda.pyTruthy (some tn) = true := by
      simp [ApiLambda.pyTruthy, hne]
    refine ⟨fun hlt => ?_, fun ts hts htsne => ⟨fun hnone => ?_, fun b hb => ?_⟩⟩
    · simp [ApiLambda.lambda_handler, ApiLambda.handleQuery, htr, htr2, htn, hlt]
    · have htst2 : ApiLambda.pyTruthy (some ts) = true := by
        simp [ApiLambda.pyTruthy, htsne]
      simp [ApiLambda.lambda_handler, ApiLambda.handleQuery, htr, htr2, htn, htst2, hts, hnone]
    · have htst2 : ApiLambda.pyTruthy (some ts) = true := by
        simp [ApiLambda.pyTruthy, htsne]
      simp [ApiLambda.lambda_handler, ApiLambda.handleQuery, htr, htr2, htn, htst2, hts, hb]
  · intro tn b r
    simp [ApiLambda.scanFilter, List.mem_filter, and_assoc]

/-- C10 amended witness: a request with only a valid `table_name` answers
200 with the matching records. -/
theorem c10_api_response_cases_witness :
    ApiLambda.lambda_handler (ApiLambda.QSP.params [("table_name", "orders")]) [] =
      ApiLambda.ApiResponse.mk 200 (ApiLambda.ApiBody.records []) :=
  (((c10_api_response_cases (ApiLambda.QSP.params [("table_name", "orders")])
      [("table_name", "orders")] []).2.2.2.1 "orders" (by decide) (by decide)).1
    (by decide)).trans (by rfl)
